import Mathlib

set_option maxHeartbeats 1000000

/-!
Shallow embedding of the OPLPS client's core logic: the overdue/aging
classifier (`getNotificationStatus` in `NotificationList.tsx`,
`getNotificationStatusForBadge` in `AppSidebar.tsx`), the optimistic mutation
reconcilers (`handlePostEventApiAction` in `NotificationList.tsx`,
`handlePostApiAction` in `ListPartIem.tsx`), the post-fetch filters, and the
issue-out / damage modal validation (`IssueOutItemModal.tsx`,
`DamageItemModal.tsx`).

Machine conventions of the embedding:
* JS timestamps are epoch milliseconds as `Int`; "now" (`new Date()`) and the
  local timezone offset are explicit parameters.
* JS numbers that carry quantities are modelled as `Rat` (so fractional
  inputs are expressible); day counts and millisecond values are `Int`.
* `new Date(string)` is modelled by `jsDateMs`, an executable model of the
  ECMAScript Date Time String Format grammar; strings outside the grammar
  yield `none` (an invalid date), matching `isNaN(date.getTime())`.
-/

/-- The four ordinal aging-severity labels (`NotificationItem["notificationStatus"]`). -/
inductive Bucket
  | ok
  | gt14
  | gt30
  | gt90
deriving DecidableEq, Repr

/-- Numeric severity of a bucket, for stating monotonicity (ok < gt14 < gt30 < gt90). -/
def severity : Bucket → Nat
  | .ok => 0
  | .gt14 => 1
  | .gt30 => 2
  | .gt90 => 3

/-- The threshold chain of `getNotificationStatus` (NotificationList.tsx lines
145-148), evaluated on the floored whole-day difference: `>90` wins first, then
`>30`, then `>=14`, else `ok`. -/
def bucketOfDays (diffDays : Int) : Bucket :=
  if diffDays > 90 then .gt90
  else if diffDays > 30 then .gt30
  else if diffDays >= 14 then .gt14
  else .ok

/-- `1000 * 60 * 60 * 24`, the divisor used for day counts. -/
def msPerDay : Int := 86400000

/-- Proleptic-Gregorian day number (days since 1970-01-01) of a civil date,
used to model `Date.UTC(y, m, d)` (which equals this times `msPerDay`). -/
def daysFromCivil (y m d : Int) : Int :=
  let yAdj := if m <= 2 then y - 1 else y
  let era := yAdj.fdiv 400
  let yoe := yAdj - era * 400
  let mp := (m + 9) % 12
  let doy := (153 * mp + 2).fdiv 5 + d - 1
  let doe := yoe * 365 + yoe.fdiv 4 - yoe.fdiv 100 + doy
  era * 146097 + doe - 719468

/-- Inverse of `daysFromCivil`: the civil `(year, month, day)` of a day number,
used to model the `getUTCFullYear`/`getUTCMonth`/`getUTCDate` accessors. -/
def civilFromDays (dayNumber : Int) : Int × Int × Int :=
  let z := dayNumber + 719468
  let era := z.fdiv 146097
  let doe := z - era * 146097
  let yoe := (doe - doe.fdiv 1460 + doe.fdiv 36524 - doe.fdiv 146096).fdiv 365
  let y := yoe + era * 400
  let doy := doe - (365 * yoe + yoe.fdiv 4 - yoe.fdiv 100)
  let mp := (5 * doy + 2).fdiv 153
  let d := doy - (153 * mp + 2).fdiv 5 + 1
  let m := if mp < 10 then mp + 3 else mp - 9
  (if m <= 2 then y + 1 else y, m, d)

def isLeapYear (y : Int) : Bool :=
  (y % 4 == 0 && y % 100 != 0) || y % 400 == 0

def daysInMonth (y m : Int) : Int :=
  if m == 2 then (if isLeapYear y then 29 else 28)
  else if m == 4 || m == 6 || m == 9 || m == 11 then 30
  else 31

def digitVal (c : Char) : Nat := c.toNat - 48

def digitsToNat (cs : List Char) : Nat :=
  cs.foldl (fun a c => a * 10 + digitVal c) 0

/-! JS string primitives, modelled structurally over the character list (so
that proofs can evaluate them). -/

/-- Whitespace recognised by the JS trimming / number conversions modelled
here (blank, tab, newline, carriage return). -/
def isJsSpace (c : Char) : Bool :=
  c == ' ' || c == '\t' || c == '\n' || c == '\r'

/-- JS `String.prototype.trim`. -/
def jsTrim (s : String) : String :=
  ⟨((s.toList.dropWhile isJsSpace).reverse.dropWhile isJsSpace).reverse⟩

/-- JS `s.includes(c)` for a single-character search string. -/
def jsIncludes (s : String) (c : Char) : Bool :=
  s.toList.contains c

/-- JS `s.startsWith(pre)`. -/
def jsStartsWith (s pre : String) : Bool :=
  s.toList.take pre.length == pre.toList

/-- JS `s.endsWith(suff)`. -/
def jsEndsWith (s suff : String) : Bool :=
  s.toList.reverse.take suff.length == suff.toList.reverse

/-- The kernel of `jsReplaceFirst`: rewrite the first occurrence of `pat`. -/
def jsReplaceFirstList (pat rep : List Char) : List Char → List Char
  | [] => []
  | c :: rest =>
    if (c :: rest).take pat.length = pat then rep ++ (c :: rest).drop pat.length
    else c :: jsReplaceFirstList pat rep rest

/-- JS `s.replace(pat, rep)` with a (non-empty) string pattern: unlike Lean's
`String.replace`, it rewrites only the FIRST occurrence. -/
def jsReplaceFirst (s pat rep : String) : String :=
  ⟨jsReplaceFirstList pat.toList rep.toList s.toList⟩

/-- Read exactly `n` decimal digits from the front of `cs`. -/
def readDigits (n : Nat) (cs : List Char) : Option (Nat × List Char) :=
  let pre := cs.take n
  if pre.length == n && pre.all Char.isDigit then
    some (digitsToNat pre, cs.drop n)
  else none

/-- Read the `YYYY[-MM[-DD]]` date portion of the ECMAScript Date Time String
Format, validating month and day-of-month ranges. -/
def readDateYMD (cs : List Char) : Option (Int × Int × Int × List Char) :=
  match readDigits 4 cs with
  | none => none
  | some (y, r1) =>
    match r1 with
    | '-' :: r2 =>
      match readDigits 2 r2 with
      | none => none
      | some (m, r3) =>
        if m < 1 ∨ m > 12 then none
        else
          match r3 with
          | '-' :: r4 =>
            match readDigits 2 r4 with
            | none => none
            | some (d, r5) =>
              if d < 1 ∨ (d : Int) > daysInMonth (y : Int) (m : Int) then none
              else some ((y : Int), (m : Int), (d : Int), r5)
          | _ => some ((y : Int), (m : Int), 1, r3)
    | _ => some ((y : Int), 1, 1, r1)

/-- Milliseconds denoted by a time fraction (`.` followed by digits); only the
first three digits are significant. -/
def msOfFraction (ds : List Char) : Nat :=
  digitsToNat ((ds ++ ['0', '0', '0']).take 3)

/-- Read the `HH:mm[:ss[.fff]]` time portion, as milliseconds within the day. -/
def readTime (cs : List Char) : Option (Int × List Char) :=
  match readDigits 2 cs with
  | none => none
  | some (hh, r1) =>
    match r1 with
    | ':' :: r2 =>
      match readDigits 2 r2 with
      | none => none
      | some (mm, r3) =>
        let secPart : Option (Nat × Nat × List Char) :=
          match r3 with
          | ':' :: r4 =>
            match readDigits 2 r4 with
            | none => none
            | some (ss, r5) =>
              match r5 with
              | '.' :: r6 =>
                let ds := r6.takeWhile Char.isDigit
                if ds.length == 0 then none
                else some (ss, msOfFraction ds, r6.dropWhile Char.isDigit)
              | _ => some (ss, 0, r5)
          | _ => some (0, 0, r3)
        match secPart with
        | none => none
        | some (ss, ms, rest) =>
          if hh > 24 ∨ mm > 59 ∨ ss > 59 then none
          else if hh = 24 ∧ (mm ≠ 0 ∨ ss ≠ 0 ∨ ms ≠ 0) then none
          else some ((((hh * 60 + mm) * 60 + ss) * 1000 + ms : Nat), rest)
    | _ => none

/-- Read an explicit `±HH:mm` offset, in minutes (east-positive). -/
def readOffsetHM (cs : List Char) : Option (Int × List Char) :=
  match readDigits 2 cs with
  | none => none
  | some (hh, r1) =>
    match r1 with
    | ':' :: r2 =>
      match readDigits 2 r2 with
      | none => none
      | some (mm, r3) =>
        if hh > 23 ∨ mm > 59 then none
        else some ((hh : Int) * 60 + mm, r3)
    | _ => none

/-- Read the optional UTC designator / offset. `some (none, rest)` means the
offset is absent (a local-time string); `some (some o, rest)` is an explicit
offset of `o` minutes east of UTC. -/
def readOffset (cs : List Char) : Option (Option Int × List Char) :=
  match cs with
  | 'Z' :: rest => some (some 0, rest)
  | '+' :: rest =>
    match readOffsetHM rest with
    | none => none
    | some (o, r) => some (some o, r)
  | '-' :: rest =>
    match readOffsetHM rest with
    | none => none
    | some (o, r) => some (some (-o), r)
  | _ => some (none, cs)

/-- Model of `new Date(s).getTime()` for the ECMAScript Date Time String
Format `YYYY[-MM[-DD]][THH:mm[:ss[.fff]]][Z|+HH:mm|-HH:mm]` (expanded
six-digit years and implementation-specific fallback formats are out of
scope; such strings, and every non-conforming string such as `"not-a-date"`,
yield `none`, i.e. an invalid date). Date-only strings are interpreted as
UTC; date-time strings without a UTC designator are interpreted as local
time at `tzOffsetMin` minutes east of UTC. -/
def jsDateMs (tzOffsetMin : Int) (s : String) : Option Int :=
  match readDateYMD s.toList with
  | none => none
  | some (y, m, d, rest) =>
    match rest with
    | 'T' :: r1 =>
      match readTime r1 with
      | none => none
      | some (timeMs, r2) =>
        match readOffset r2 with
        | none => none
        | some (offs, r3) =>
          if r3 = [] then
            let base := daysFromCivil y m d * msPerDay + timeMs
            match offs with
            | some o => some (base - o * 60000)
            | none => some (base - tzOffsetMin * 60000)
          else none
    | [] => some (daysFromCivil y m d * msPerDay)
    | _ => none

/-- The result record of `getNotificationStatus`: `{ days, status }`. -/
structure ClassifyResult where
  days : Option Int
  status : Bucket
deriving DecidableEq, Repr

/-- The ISO-string normalisation on NotificationList.tsx lines 116-119: keep
the string if it contains a `'T'`, otherwise replace the blank with `'T'` and
append `"Z"` unless it already ends with `"Z"`. -/
def notifIso (s : String) : String :=
  if jsIncludes s 'T' then s
  else jsReplaceFirst s " " "T" ++ (if jsEndsWith s "Z" then "" else "Z")

/-- `getNotificationStatus` (NotificationList.tsx lines 109-155). The input is
`Option String` so the falsy check `!referenceDateString` covers `null` /
`undefined` as well as the empty string; `tz` is the environment timezone and
`now` the evaluation instant (epoch ms). The try/catch wrapper is modelled by
totality: every input produces a result, never an exception. -/
def getNotificationStatus (tz now : Int) (ref : Option String) : ClassifyResult :=
  match ref with
  | none => ⟨none, .ok⟩
  | some s =>
    if s = "" ∨ jsStartsWith s "0000-00-00" = true then ⟨none, .ok⟩
    else
      match jsDateMs tz (notifIso s) with
      | none => ⟨none, .ok⟩
      | some refMs =>
        let todayUTCStart := msPerDay * (now.fdiv msPerDay)
        let refDateUTCStart := msPerDay * (refMs.fdiv msPerDay)
        let diffTime := todayUTCStart - refDateUTCStart
        if diffTime < 0 then ⟨some 0, .ok⟩
        else
          let diffDays := diffTime.fdiv msPerDay
          ⟨some diffDays, bucketOfDays diffDays⟩

/-- `getNotificationStatusForBadge` (AppSidebar.tsx lines 106-152). Unlike
`getNotificationStatus` it builds its ISO string unconditionally as
`s.replace(" ", "T") + "Z"`, with no check for an existing `'T'` or a
trailing `"Z"`. -/
def getNotificationStatusForBadge (tz now : Int) (ref : Option String) : Bucket :=
  match ref with
  | none => .ok
  | some s =>
    if s = "" ∨ jsStartsWith s "0000-00-00" = true then .ok
    else
      match jsDateMs tz (jsReplaceFirst s " " "T" ++ "Z") with
      | none => .ok
      | some refMs =>
        let todayUTCStart := msPerDay * (now.fdiv msPerDay)
        let refDateUTCStart := msPerDay * (refMs.fdiv msPerDay)
        let diffTime := todayUTCStart - refDateUTCStart
        if diffTime < 0 then .ok
        else bucketOfDays (diffTime.fdiv msPerDay)

/-! ## Data model: part records and their client-side projections -/

/-- JS `Number(string)`, restricted to plain decimal literals: optional sign,
digits with an optional fraction (`"2.5"`, `".5"`, `"5."`), surrounded by
whitespace; the empty/whitespace-only string is `0`; everything else
(including hex/exponent forms, out of scope here) is NaN, i.e. `none`. -/
def jsStringToNumber (s : String) : Option Rat :=
  let cs := (jsTrim s).toList
  if cs = [] then some 0
  else
    let signed : Int × List Char :=
      match cs with
      | '-' :: r => (-1, r)
      | '+' :: r => (1, r)
      | _ => (1, cs)
    let sign := signed.1
    let cs1 := signed.2
    let ip := cs1.takeWhile Char.isDigit
    let r1 := cs1.dropWhile Char.isDigit
    match r1 with
    | [] => if ip = [] then none else some (Rat.divInt (sign * digitsToNat ip) 1)
    | '.' :: r2 =>
      let fp := r2.takeWhile Char.isDigit
      let r3 := r2.dropWhile Char.isDigit
      if r3 = [] ∧ (ip ≠ [] ∨ fp ≠ []) then
        some (Rat.divInt
          (sign * ((digitsToNat ip : Int) * 10 ^ fp.length + (digitsToNat fp : Int)))
          (10 ^ fp.length))
      else none
    | _ => none

/-- JS `v || 0` applied to a `Number(...)` result: NaN collapses to `0`. -/
def jsNumberOr0 (v : Option Rat) : Rat :=
  match v with
  | some x => x
  | none => 0

/-- JS `a || b` on strings: the empty string is falsy. -/
def jsOrString (a b : String) : String :=
  if a = "" then b else a

/-- JS `a ?? b` on a nullable string. -/
def jsNullishString (a : Option String) (b : String) : String :=
  match a with
  | some s => s
  | none => b

/-- The wire shape consumed from the parts API (`interface ApiListItem`,
identical in NotificationList.tsx, ListPartIem.tsx and AppSidebar.tsx).
`quantity` is `number | string` on the wire and is always passed through
`Number(...)`; it is carried here as the string fed to that conversion. -/
structure ApiListItem where
  part_id : String
  part_number : String
  quantity : String
  type_description : String
  status_description : String
  updated_on : String
  created_by_user : Option String
  approved_by_user : Option String
  approved_on : Option String
  type : Option String
  status : Option String
  created_on : String
deriving DecidableEq, Repr

/-- `interface NotificationItem` (NotificationList.tsx lines 50-61). -/
structure NotificationItem where
  id : String
  partNumber : String
  typeDescription : String
  quantity : Rat
  returnDate : String
  createdBy : Option String
  approvedBy : Option String
  lastUpdated : String
  daysSinceReturn : Option Int
  notificationStatus : Bucket
deriving DecidableEq, Repr

/-- `mapApiToNotificationItem` (NotificationList.tsx lines 157-171). -/
def mapApiToNotificationItem (tz now : Int) (apiItem : ApiListItem) : NotificationItem :=
  let r := getNotificationStatus tz now (some apiItem.created_on)
  { id := apiItem.part_id
    partNumber := apiItem.part_number
    typeDescription := apiItem.type_description
    quantity := jsNumberOr0 (jsStringToNumber apiItem.quantity)
    returnDate := apiItem.created_on
    createdBy := some (jsNullishString apiItem.created_by_user "N/A")
    approvedBy := apiItem.approved_by_user
    lastUpdated := apiItem.updated_on
    daysSinceReturn := r.days
    notificationStatus := r.status }

/-- The success path of `fetchData` in NotificationList.tsx (lines 217-226):
map the API items, keep only approved items with positive quantity, then keep
only overdue ones. -/
def notificationFetchSuccess (tz now : Int) (items : List ApiListItem) : List NotificationItem :=
  let mappedData := items.map (mapApiToNotificationItem tz now)
  let approvedItems := mappedData.filter
    (fun item => item.approvedBy.isSome && decide (0 < item.quantity))
  let overdueItems := approvedItems.filter
    (fun item => decide (item.notificationStatus ≠ .ok))
  overdueItems

/-- `parseApiDateTime` (ListPartIem.tsx lines 71-100): unset/sentinel/blank
strings give `null`; otherwise the blank is replaced by `'T'` (no `"Z"` is
appended, so date-times parse as local time) and an invalid date gives `null`. -/
def parseApiDateTime (tz : Int) (dateTimeString : Option String) : Option Int :=
  match dateTimeString with
  | none => none
  | some s =>
    if s = "" ∨ jsStartsWith s "0000-00-00" = true ∨ jsTrim s = "" then none
    else jsDateMs tz (jsReplaceFirst s " " "T")

/-- Zero-padded two-digit rendering used by the `DD/MM/YYYY` formatters. -/
def pad2 (n : Int) : String :=
  if n < 10 then "0" ++ toString n else toString n

/-- `formatDateForUIDisplay` (ListPartIem.tsx lines 103-116): `"N/A"` for a
missing date, else `DD/MM/YYYY` from the UTC calendar fields. -/
def formatDateForUIDisplay (date : Option Int) : String :=
  match date with
  | none => "N/A"
  | some ms =>
    let ymd := civilFromDays (ms.fdiv msPerDay)
    pad2 ymd.2.2 ++ "/" ++ pad2 ymd.2.1 ++ "/" ++ toString ymd.1

/-- `interface ListItem` (ListPartIem.tsx lines 53-69); `Date` objects are
epoch milliseconds, with `new Date(0)` as the mapped fallback. -/
structure ListItem where
  id : String
  partNumber : String
  quantity : Rat
  typeDescription : String
  statusDescription : String
  lastUpdatedDisplay : String
  lastUpdatedObject : Int
  createdBy : Option String
  approvedBy : Option String
  approvedOnDisplay : String
  approvedOnObject : Option Int
  typeId : Option String
  statusId : Option String
  partCreatedDateDisplay : String
  partCreatedDateObject : Int
deriving DecidableEq, Repr

/-- `mapApiToState` (ListPartIem.tsx lines 118-140). -/
def mapApiToState (tz : Int) (apiItem : ApiListItem) : ListItem :=
  let partCreatedDateObj := parseApiDateTime tz (some apiItem.created_on)
  let lastUpdatedObj := parseApiDateTime tz (some apiItem.updated_on)
  let approvedOnObj := parseApiDateTime tz apiItem.approved_on
  { id := apiItem.part_id
    partNumber := apiItem.part_number
    quantity := jsNumberOr0 (jsStringToNumber apiItem.quantity)
    typeDescription := jsOrString apiItem.type_description "N/A"
    statusDescription := jsOrString apiItem.status_description "N/A"
    lastUpdatedDisplay := formatDateForUIDisplay lastUpdatedObj
    lastUpdatedObject := lastUpdatedObj.getD 0
    createdBy := some (jsNullishString apiItem.created_by_user "N/A")
    approvedBy := apiItem.approved_by_user
    approvedOnDisplay := formatDateForUIDisplay approvedOnObj
    approvedOnObject := approvedOnObj
    typeId := apiItem.type
    statusId := apiItem.status
    partCreatedDateDisplay := formatDateForUIDisplay partCreatedDateObj
    partCreatedDateObject := partCreatedDateObj.getD 0 }

/-- The success path of `fetchData` in ListPartIem.tsx (lines 183-188): map
the API items, keep only approved items with positive quantity. -/
def listFetchSuccess (tz : Int) (items : List ApiListItem) : List ListItem :=
  let mappedData := items.map (mapApiToState tz)
  mappedData.filter (fun item => item.approvedBy.isSome && decide (0 < item.quantity))

/-! ## Optimistic mutation reconcilers -/

/-- The optimistic local-state update on success in `handlePostEventApiAction`
(NotificationList.tsx lines 352-367): with `remainingQuantity` already
computed as `actionItem.quantity - quantityChanged`, remove the item when the
remainder is `<= 0`, else replace its quantity. -/
def reconcileNotificationData (prevData : List NotificationItem)
    (currentActionItemId : String) (remainingQuantity : Rat) : List NotificationItem :=
  if remainingQuantity ≤ 0 then
    prevData.filter (fun item => item.id != currentActionItemId)
  else
    prevData.map (fun item =>
      if item.id = currentActionItemId then { item with quantity := remainingQuantity } else item)

/-- The identical optimistic update in `handlePostApiAction`
(ListPartIem.tsx lines 372-386). -/
def reconcileListData (prevData : List ListItem)
    (currentActionItemId : String) (remainingQuantity : Rat) : List ListItem :=
  if remainingQuantity ≤ 0 then
    prevData.filter (fun item => item.id != currentActionItemId)
  else
    prevData.map (fun item =>
      if item.id = currentActionItemId then { item with quantity := remainingQuantity } else item)

/-! ## The issue-out / damage POST handlers as state transitions -/

/-- The parsed JSON response together with `response.ok` / `response.status`. -/
structure ApiResult where
  ok : Bool
  httpStatus : Nat
  status : String
  message : Option String
deriving DecidableEq, Repr

/-- Outcome of the `fetch` + `response.json()` round-trip: `fail` when either
rejects (transport failure or non-JSON body), carrying the exception message. -/
inductive FetchOutcome
  | fail (msg : String)
  | got (result : ApiResult)
deriving DecidableEq, Repr

/-- `result.message || fallback` (JS `||`: absent or empty message falls back). -/
def jsOrMessage (m : Option String) (fallback : String) : String :=
  match m with
  | some s => if s = "" then fallback else s
  | none => fallback

/-- Whether the round-trip counts as a failed remote call: transport/parse
failure, non-OK HTTP status, or a body whose `status` is not `"success"`
(the condition of the `throw` on NotificationList.tsx line 337). -/
def remoteCallFailed : FetchOutcome → Prop
  | .fail _ => True
  | .got result => result.ok = false ∨ result.status ≠ "success"

instance : DecidablePred remoteCallFailed := by
  intro o
  cases o <;> simp only [remoteCallFailed] <;> infer_instance

/-- Whether the handler's promise resolved or rejected (the modal's catch
block displays the message of a rejection). -/
inductive ActionOutcome
  | resolved
  | rejected (msg : String)
deriving DecidableEq, Repr

/-- The component state of `NotificationListTable` touched by
`handlePostEventApiAction`. -/
structure NotificationState where
  allNotificationData : List NotificationItem
  error : Option String
  successMessage : Option String
  isActionLoading : Bool
  actionItem : Option NotificationItem
  isIssueOutModalOpen : Bool
  isDamageModalOpen : Bool
deriving DecidableEq, Repr

/-- `handlePostEventApiAction` (NotificationList.tsx lines 316-386) as a state
transition on the fetch outcome: clear messages and set the loading flag; on a
failed remote call, set `error` and re-throw (catch + `finally`); on success,
set the success message, close the modal, and apply the optimistic update to
`allNotificationData`; `finally` always clears the loading flag and
`actionItem`. -/
def handlePostEventApiAction (st : NotificationState) (outcome : FetchOutcome)
    (actionDesc : String) (quantityChanged : Rat) : NotificationState × ActionOutcome :=
  match st.actionItem with
  | none => (st, .rejected ("No item selected for " ++ actionDesc))
  | some actionItem =>
    let st1 := { st with error := none, successMessage := none, isActionLoading := true }
    match outcome with
    | .fail msg =>
      ({ st1 with error := some msg, isActionLoading := false, actionItem := none },
        .rejected msg)
    | .got result =>
      if result.ok = false ∨ result.status ≠ "success" then
        let msg := jsOrMessage result.message
          ("API Error for " ++ actionDesc ++ ": " ++ toString result.httpStatus)
        ({ st1 with error := some msg, isActionLoading := false, actionItem := none },
          .rejected msg)
      else
        let successMsg :=
          if actionDesc = "issue out item" then
            "Successfully issued out " ++ toString quantityChanged ++ " unit(s) of \"" ++
              actionItem.partNumber ++ "\"."
          else
            "Successfully marked " ++ toString quantityChanged ++ " unit(s) of \"" ++
              actionItem.partNumber ++ "\" as damaged."
        let remainingQuantity := actionItem.quantity - quantityChanged
        ({ st1 with
            successMessage := some successMsg
            isIssueOutModalOpen := false
            isDamageModalOpen := false
            allNotificationData :=
              reconcileNotificationData st1.allNotificationData actionItem.id remainingQuantity
            isActionLoading := false
            actionItem := none },
          .resolved)

/-- The component state of `ListPartItemTable` touched by `handlePostApiAction`. -/
structure ListState where
  allData : List ListItem
  error : Option String
  successMessage : Option String
  isActionLoading : Bool
  actionItem : Option ListItem
  isEditModalOpen : Bool
  isIssueOutModalOpen : Bool
  isDamageModalOpen : Bool
deriving DecidableEq, Repr

/-- `handlePostApiAction` (ListPartIem.tsx lines 331-401), structured exactly
like `handlePostEventApiAction` but over `ListState`. -/
def handlePostApiAction (st : ListState) (outcome : FetchOutcome)
    (actionDesc : String) (quantityChanged : Rat) : ListState × ActionOutcome :=
  match st.actionItem with
  | none => (st, .rejected ("No item selected for action: " ++ actionDesc))
  | some actionItem =>
    let st1 := { st with error := none, successMessage := none, isActionLoading := true }
    match outcome with
    | .fail msg =>
      ({ st1 with error := some msg, isActionLoading := false, actionItem := none },
        .rejected msg)
    | .got result =>
      if result.ok = false ∨ result.status ≠ "success" then
        let msg := jsOrMessage result.message
          ("API Error for " ++ actionDesc ++ ": " ++ toString result.httpStatus)
        ({ st1 with error := some msg, isActionLoading := false, actionItem := none },
          .rejected msg)
      else
        let successMsg :=
          if actionDesc = "issue out item" then
            "Successfully issued out " ++ toString quantityChanged ++ " unit(s) of \"" ++
              actionItem.partNumber ++ "\"."
          else
            "Successfully marked " ++ toString quantityChanged ++ " unit(s) of \"" ++
              actionItem.partNumber ++ "\" as damaged."
        let remainingQuantity := actionItem.quantity - quantityChanged
        ({ st1 with
            successMessage := some successMsg
            isEditModalOpen := false
            isIssueOutModalOpen := false
            isDamageModalOpen := false
            allData := reconcileListData st1.allData actionItem.id remainingQuantity
            isActionLoading := false
            actionItem := none },
          .resolved)

/-! ## Modal submission: client-side validation before any network call -/

/-- The `itemData` prop handed to both modals. -/
structure ModalItemData where
  id : String
  quantity : Rat
  partNumber : String
  partDescription : String
  dateOfReturn : String
deriving DecidableEq, Repr

/-- What a submission attempt amounts to: blocked by the browser's constraint
validation (no submit event fires), a synchronous validation error set by
`handleSubmit` before any network activity, or a call to the parent `onSubmit`
with the assembled payload — the only case that reaches the network. -/
inductive SubmitResult
  | blocked (reason : String)
  | validationError (msg : String)
  | network (quantity : Rat) (remarks : Option String)
deriving DecidableEq, Repr

/-- Constraint validation the browser applies to the quantity input
(`<input type="number" required min="1">` in both modals, with the implicit
`step` of 1): the form's submit event — and hence `handleSubmit` — only fires
when the value is non-empty (`required`), numeric, at least 1 (`min`), and an
integer (`step` mismatch otherwise). -/
def quantityInputAllowsSubmit (value : String) : Bool :=
  if value = "" then false
  else
    match jsStringToNumber value with
    | none => false
    | some v => decide (1 ≤ v) && decide (v.den = 1)

/-- The validation/payload logic of `handleSubmit` in IssueOutItemModal.tsx
(lines 130-171): NaN or non-positive quantity, or quantity above the
available amount, set an error and return before `onSubmit`; otherwise the
payload `{quantity_issued, remarks: trimmed || undefined}` goes to the
network. -/
def issueOutHandleSubmit (itemData : ModalItemData) (quantity : String)
    (remarks : String) : SubmitResult :=
  match jsStringToNumber quantity with
  | none => .validationError "Please enter a valid positive quantity to issue."
  | some quantityNum =>
    if quantityNum ≤ 0 then
      .validationError "Please enter a valid positive quantity to issue."
    else if quantityNum > itemData.quantity then
      .validationError ("Quantity to issue (" ++ toString quantityNum ++
        ") cannot exceed available amount (" ++ toString itemData.quantity ++ ").")
    else
      .network quantityNum (if jsTrim remarks = "" then none else some (jsTrim remarks))

/-- The validation/payload logic of `handleSubmit` in DamageItemModal.tsx
(lines 120-163): the same quantity checks, plus a mandatory non-blank remark. -/
def damageHandleSubmit (itemData : ModalItemData) (quantity : String)
    (remarks : String) : SubmitResult :=
  match jsStringToNumber quantity with
  | none => .validationError "Please enter a valid positive quantity for damaged items."
  | some quantityNum =>
    if quantityNum ≤ 0 then
      .validationError "Please enter a valid positive quantity for damaged items."
    else if quantityNum > itemData.quantity then
      .validationError ("Damaged quantity (" ++ toString quantityNum ++
        ") cannot exceed available amount (" ++ toString itemData.quantity ++ ").")
    else if jsTrim remarks = "" then
      .validationError "Remarks are required for damaged items."
    else
      .network quantityNum (some (jsTrim remarks))

/-- An issue-out submission end to end: browser constraint validation on the
quantity input, then `handleSubmit`. -/
def issueOutFormSubmit (itemData : ModalItemData) (quantity : String)
    (remarks : String) : SubmitResult :=
  if quantityInputAllowsSubmit quantity then issueOutHandleSubmit itemData quantity remarks
  else .blocked "quantity input failed constraint validation"

/-- A damage submission end to end. -/
def damageFormSubmit (itemData : ModalItemData) (quantity : String)
    (remarks : String) : SubmitResult :=
  if quantityInputAllowsSubmit quantity then damageHandleSubmit itemData quantity remarks
  else .blocked "quantity input failed constraint validation"


/-! ## Sample data for concrete instantiations -/

/-- A concrete approved, overdue notification item. -/
def sampleNotifA : NotificationItem :=
  { id := "P1", partNumber := "PN-100", typeDescription := "Ocell", quantity := 5
    returnDate := "2023-11-22 00:00:00", createdBy := some "U2", approvedBy := some "U1"
    lastUpdated := "2023-11-22 00:00:00", daysSinceReturn := some 40
    notificationStatus := .gt30 }

/-- A second notification item with a distinct identifier. -/
def sampleNotifB : NotificationItem :=
  { sampleNotifA with id := "P2", partNumber := "PN-200", quantity := 3 }

/-- A concrete approved list item. -/
def sampleListA : ListItem :=
  { id := "P1", partNumber := "PN-100", quantity := 5, typeDescription := "Ocell"
    statusDescription := "Approved", lastUpdatedDisplay := "22/11/2023"
    lastUpdatedObject := 1700611200000, createdBy := some "U2", approvedBy := some "U1"
    approvedOnDisplay := "22/11/2023", approvedOnObject := some 1700611200000
    typeId := some "1", statusId := some "2", partCreatedDateDisplay := "22/11/2023"
    partCreatedDateObject := 1700611200000 }

/-- A second list item with a distinct identifier. -/
def sampleListB : ListItem :=
  { sampleListA with id := "P2", partNumber := "PN-200", quantity := 3 }

/-- A concrete `itemData` prop with 5 units available. -/
def sampleModalItem : ModalItemData :=
  { id := "P1", quantity := 5, partNumber := "PN-100", partDescription := "Ocell"
    dateOfReturn := "2023-11-22 00:00:00" }

/-- A notification component state holding `sampleNotifA` with it selected. -/
def sampleNotifState : NotificationState :=
  { allNotificationData := [sampleNotifA], error := none, successMessage := none
    isActionLoading := false, actionItem := some sampleNotifA
    isIssueOutModalOpen := true, isDamageModalOpen := false }

/-- A list component state holding `sampleListA` with it selected. -/
def sampleListState : ListState :=
  { allData := [sampleListA], error := none, successMessage := none
    isActionLoading := false, actionItem := some sampleListA
    isEditModalOpen := false, isIssueOutModalOpen := true, isDamageModalOpen := false }

/-! ## Helper lemmas -/

theorem list_filter_eq_self_of {α : Type} (p : α → Bool) (l : List α)
    (h : ∀ x ∈ l, p x = true) : l.filter p = l := by
  induction l with
  | nil => rfl
  | cons a t ih =>
    rw [List.filter_cons_of_pos (h a (List.mem_cons_self a t)),
      ih (fun x hx => h x (List.mem_cons_of_mem a hx))]

theorem list_map_eq_self_of {α : Type} (f : α → α) (l : List α)
    (h : ∀ x ∈ l, f x = x) : l.map f = l := by
  induction l with
  | nil => rfl
  | cons a t ih =>
    rw [List.map_cons, h a (List.mem_cons_self a t),
      ih (fun x hx => h x (List.mem_cons_of_mem a hx))]

/-- Unfolding of the classifier once the guard fails and the date parses:
the result is determined by the whole-day difference. -/
theorem getNotificationStatus_parse_eq (tz now : Int) (s : String) (refMs : Int)
    (h1 : ¬(s = "" ∨ jsStartsWith s "0000-00-00" = true))
    (h2 : jsDateMs tz (notifIso s) = some refMs) :
    getNotificationStatus tz now (some s) =
      (if now.fdiv msPerDay - refMs.fdiv msPerDay < 0 then ⟨some 0, .ok⟩
       else ⟨some (now.fdiv msPerDay - refMs.fdiv msPerDay),
         bucketOfDays (now.fdiv msPerDay - refMs.fdiv msPerDay)⟩) := by
  have hne : msPerDay ≠ 0 := by norm_num [msPerDay]
  simp only [getNotificationStatus, if_neg h1, h2]
  have hsub : msPerDay * (now.fdiv msPerDay) - msPerDay * (refMs.fdiv msPerDay)
      = msPerDay * (now.fdiv msPerDay - refMs.fdiv msPerDay) := by ring
  rw [hsub]
  have hiff : msPerDay * (now.fdiv msPerDay - refMs.fdiv msPerDay) < 0 ↔
      now.fdiv msPerDay - refMs.fdiv msPerDay < 0 := by
    simp only [msPerDay]; omega
  have hdiv : (msPerDay * (now.fdiv msPerDay - refMs.fdiv msPerDay)).fdiv msPerDay
      = now.fdiv msPerDay - refMs.fdiv msPerDay := Int.mul_fdiv_cancel_left _ hne
  by_cases hd : now.fdiv msPerDay - refMs.fdiv msPerDay < 0
  · rw [if_pos (hiff.mpr hd), if_pos hd]
  · rw [if_neg (fun hc => hd (hiff.mp hc)), if_neg hd, hdiv]

/-! ## Claim theorems -/

/-- C8: for all day counts `0 ≤ d1 < d2`, the bucket assigned to `d2` is
never of lower severity than the one assigned to `d1`
(ok < gt14 < gt30 < gt90). -/
theorem C8_bucket_monotonicity (d1 d2 : Int) (h0 : 0 ≤ d1) (h : d1 < d2) :
    severity (bucketOfDays d1) ≤ severity (bucketOfDays d2) := by
  simp only [bucketOfDays]
  split_ifs <;> simp only [severity] <;> omega

theorem C8_bucket_monotonicity_witness :
    severity (bucketOfDays 20) ≤ severity (bucketOfDays 100) :=
  C8_bucket_monotonicity 20 100 (by decide) (by decide)

/-- C1 (amended): for every timezone, instant of evaluation, and reference
timestamp that neither contains a `'T'` separator nor ends with `"Z"` — in
particular every string in the expected `"YYYY-MM-DD HH:MM:SS"` form, as well
as null/empty/sentinel inputs — the notification-list classifier and the
sidebar-badge classifier produce identical buckets. (The dashboard metrics
involve no client-side classification: `fetchDashboardMetrics` returns
server-aggregated counts verbatim.) -/
theorem C1_badge_and_list_classifier_agree (tz now : Int) (ref : Option String)
    (h : ∀ s, ref = some s → jsIncludes s 'T' = false ∧ jsEndsWith s "Z" = false) :
    (getNotificationStatus tz now ref).status = getNotificationStatusForBadge tz now ref := by
  cases ref with
  | none => rfl
  | some s =>
    obtain ⟨hT, hZ⟩ := h s rfl
    have hiso : notifIso s = jsReplaceFirst s " " "T" ++ "Z" := by
      simp [notifIso, hT, hZ]
    simp only [getNotificationStatus, getNotificationStatusForBadge, hiso]
    by_cases hg : s = "" ∨ jsStartsWith s "0000-00-00" = true
    · simp [hg]
    · simp only [if_neg hg]
      cases hp : jsDateMs tz (jsReplaceFirst s " " "T" ++ "Z") with
      | none => rfl
      | some refMs =>
        by_cases hd : msPerDay * (now.fdiv msPerDay) - msPerDay * (refMs.fdiv msPerDay) < 0
        · simp [hd]
        · simp [hd]

theorem C1_badge_and_list_classifier_agree_witness :
    (getNotificationStatus 0 1704067200000 (some "2023-11-22 00:00:00")).status =
      getNotificationStatusForBadge 0 1704067200000 (some "2023-11-22 00:00:00") :=
  C1_badge_and_list_classifier_agree 0 1704067200000 (some "2023-11-22 00:00:00")
    (fun s hs => by
      injection hs with h
      subst h
      exact ⟨by decide, by decide⟩)

/-- C1 counterexample: at the valid ISO reference timestamp
`"2020-01-01T00:00:00Z"` evaluated at 2024-01-01T00:00:00Z UTC, the
notification-list classifier buckets `gt90` while the sidebar-badge
classifier (which blindly appends another `"Z"`) fails to parse and yields
`ok` — the call sites do not produce identical bucket results for every
reference timestamp string. -/
theorem C1_badge_and_list_classifier_differ :
    (getNotificationStatus 0 1704067200000 (some "2020-01-01T00:00:00Z")).status = Bucket.gt90 ∧
    getNotificationStatusForBadge 0 1704067200000 (some "2020-01-01T00:00:00Z") = Bucket.ok ∧
    ¬((getNotificationStatus 0 1704067200000 (some "2020-01-01T00:00:00Z")).status =
        getNotificationStatusForBadge 0 1704067200000 (some "2020-01-01T00:00:00Z")) := by
  refine ⟨by decide, by decide, by decide⟩

/-- C5: for reference timestamps lying exactly 14, 30, 31, 90, and 91 whole
calendar days before "now", the classifier yields buckets `gt14`, `gt14`,
`gt30`, `gt30`, and `gt90` respectively. -/
theorem C5_boundary_exactness (tz now : Int) (s : String) (refMs : Int)
    (h1 : ¬(s = "" ∨ jsStartsWith s "0000-00-00" = true))
    (h2 : jsDateMs tz (notifIso s) = some refMs) :
    (now.fdiv msPerDay - refMs.fdiv msPerDay = 14 →
      (getNotificationStatus tz now (some s)).status = .gt14) ∧
    (now.fdiv msPerDay - refMs.fdiv msPerDay = 30 →
      (getNotificationStatus tz now (some s)).status = .gt14) ∧
    (now.fdiv msPerDay - refMs.fdiv msPerDay = 31 →
      (getNotificationStatus tz now (some s)).status = .gt30) ∧
    (now.fdiv msPerDay - refMs.fdiv msPerDay = 90 →
      (getNotificationStatus tz now (some s)).status = .gt30) ∧
    (now.fdiv msPerDay - refMs.fdiv msPerDay = 91 →
      (getNotificationStatus tz now (some s)).status = .gt90) := by
  have h := getNotificationStatus_parse_eq tz now s refMs h1 h2
  refine ⟨?_, ?_, ?_, ?_, ?_⟩ <;> intro hd <;> rw [h, hd] <;> decide

theorem C5_boundary_exactness_witness :
    (getNotificationStatus 0 1704067200000 (some "2023-12-18 00:00:00")).status = .gt14 :=
  (C5_boundary_exactness 0 1704067200000 "2023-12-18 00:00:00" 1702857600000
    (by decide) (by decide)).1 (by decide)

/-- C6: unset/null, empty, sentinel (`"0000-00-00..."`), and unparseable
reference timestamps all classify to `{days: null, bucket: "ok"}`; the
embedded classifier is a total function, so no exception reaches the caller. -/
theorem C6_fail_open (tz now : Int) (ref : Option String)
    (h : ref = none ∨ ref = some "" ∨
      (∃ s, ref = some s ∧ jsStartsWith s "0000-00-00" = true) ∨
      (∃ s, ref = some s ∧ jsDateMs tz (notifIso s) = none)) :
    getNotificationStatus tz now ref = ⟨none, .ok⟩ := by
  rcases h with h | h | ⟨s, rfl, hs⟩ | ⟨s, rfl, hs⟩
  · subst h; rfl
  · subst h; rfl
  · simp [getNotificationStatus, hs]
  · by_cases hg : s = "" ∨ jsStartsWith s "0000-00-00" = true
    · simp [getNotificationStatus, hg]
    · simp [getNotificationStatus, hg, hs]

theorem C6_fail_open_witness :
    getNotificationStatus 0 1704067200000 (some "not-a-date") = ⟨none, .ok⟩ :=
  C6_fail_open 0 1704067200000 (some "not-a-date")
    (Or.inr (Or.inr (Or.inr ⟨"not-a-date", rfl, by decide⟩)))

/-- C7: a valid reference timestamp whose UTC calendar day lies strictly
after that of "now" (negative floored day difference) classifies to
`{days: 0, bucket: "ok"}`; and in general the classifier never reports a
negative day count. -/
theorem C7_future_date_safety (tz now : Int) :
    (∀ (s : String) (refMs : Int),
      ¬(s = "" ∨ jsStartsWith s "0000-00-00" = true) →
      jsDateMs tz (notifIso s) = some refMs →
      now.fdiv msPerDay - refMs.fdiv msPerDay < 0 →
      getNotificationStatus tz now (some s) = ⟨some 0, .ok⟩) ∧
    (∀ (ref : Option String) (d : Int),
      (getNotificationStatus tz now ref).days = some d → 0 ≤ d) := by
  constructor
  · intro s refMs h1 h2 h3
    rw [getNotificationStatus_parse_eq tz now s refMs h1 h2, if_pos h3]
  · intro ref d hd
    cases ref with
    | none => simp [getNotificationStatus] at hd
    | some s =>
      by_cases hg : s = "" ∨ jsStartsWith s "0000-00-00" = true
      · simp [getNotificationStatus, hg] at hd
      · cases hp : jsDateMs tz (notifIso s) with
        | none => simp [getNotificationStatus, hg, hp] at hd
        | some refMs =>
          simp only [getNotificationStatus, if_neg hg, hp] at hd
          by_cases hlt : msPerDay * (now.fdiv msPerDay) - msPerDay * (refMs.fdiv msPerDay) < 0
          · rw [if_pos hlt] at hd
            simp only [ClassifyResult.mk.injEq, Option.some.injEq] at hd
            omega
          · rw [if_neg hlt] at hd
            simp only [ClassifyResult.mk.injEq, Option.some.injEq] at hd
            have hnn : 0 ≤ msPerDay * (now.fdiv msPerDay) - msPerDay * (refMs.fdiv msPerDay) := by
              omega
            have := Int.fdiv_nonneg hnn (by norm_num [msPerDay] : (0:Int) ≤ msPerDay)
            omega

theorem C7_future_date_safety_witness :
    getNotificationStatus 0 1704067200000 (some "2024-01-02 00:00:00") = ⟨some 0, .ok⟩ :=
  (C7_future_date_safety 0 1704067200000).1 "2024-01-02 00:00:00" 1704153600000
    (by decide) (by decide) (by decide)

/-- C2: when the target occurs exactly once in the collection and the delta is
a positive amount not exceeding its quantity, reconciliation removes the
target entirely when nothing remains, and otherwise replaces it in place by a
copy with the reduced quantity — every other item and the relative order
untouched. Stated for both reconcilers (NotificationList and ListPartIem). -/
theorem C2_reconcile_success_spec :
    (∀ (l1 l2 : List NotificationItem) (t : NotificationItem) (d : Rat),
      0 < d → d ≤ t.quantity →
      (∀ x ∈ l1, x.id ≠ t.id) → (∀ x ∈ l2, x.id ≠ t.id) →
      reconcileNotificationData (l1 ++ t :: l2) t.id (t.quantity - d) =
        if t.quantity - d ≤ 0 then l1 ++ l2
        else l1 ++ { t with quantity := t.quantity - d } :: l2) ∧
    (∀ (l1 l2 : List ListItem) (t : ListItem) (d : Rat),
      0 < d → d ≤ t.quantity →
      (∀ x ∈ l1, x.id ≠ t.id) → (∀ x ∈ l2, x.id ≠ t.id) →
      reconcileListData (l1 ++ t :: l2) t.id (t.quantity - d) =
        if t.quantity - d ≤ 0 then l1 ++ l2
        else l1 ++ { t with quantity := t.quantity - d } :: l2) := by
  constructor <;>
    (intro l1 l2 t d hd hdq h1 h2
     by_cases hr : t.quantity - d ≤ 0
     · rw [if_pos hr]
       simp only [reconcileNotificationData, reconcileListData, if_pos hr]
       rw [List.filter_append,
         list_filter_eq_self_of _ l1 (fun x hx => bne_iff_ne.mpr (h1 x hx)),
         List.filter_cons_of_neg (by simp),
         list_filter_eq_self_of _ l2 (fun x hx => bne_iff_ne.mpr (h2 x hx))]
     · rw [if_neg hr]
       simp only [reconcileNotificationData, reconcileListData, if_neg hr]
       rw [List.map_append, List.map_cons,
         list_map_eq_self_of _ l1 (fun x hx => if_neg (h1 x hx)),
         list_map_eq_self_of _ l2 (fun x hx => if_neg (h2 x hx))]
       simp)

theorem C2_reconcile_success_spec_witness :
    reconcileNotificationData ([sampleNotifB] ++ sampleNotifA :: []) sampleNotifA.id
        (sampleNotifA.quantity - 2) =
      if sampleNotifA.quantity - 2 ≤ 0 then [sampleNotifB] ++ []
      else [sampleNotifB] ++ { sampleNotifA with quantity := sampleNotifA.quantity - 2 } :: [] :=
  C2_reconcile_success_spec.1 [sampleNotifB] [] sampleNotifA 2
    (by norm_num) (by norm_num [sampleNotifA]) (by decide) (by decide)

/-- C10: when the target identifier matches no item in the collection,
reconciliation is a total no-op: the collection comes back with every item
unchanged and in the same order, for both reconcilers. -/
theorem C10_reconcile_missing_target_noop :
    (∀ (l : List NotificationItem) (targetId : String) (remaining : Rat),
      (∀ x ∈ l, x.id ≠ targetId) →
      reconcileNotificationData l targetId remaining = l) ∧
    (∀ (l : List ListItem) (targetId : String) (remaining : Rat),
      (∀ x ∈ l, x.id ≠ targetId) →
      reconcileListData l targetId remaining = l) := by
  constructor <;>
    (intro l targetId remaining h
     simp only [reconcileNotificationData, reconcileListData]
     by_cases hr : remaining ≤ 0
     · rw [if_pos hr, list_filter_eq_self_of _ l (fun x hx => bne_iff_ne.mpr (h x hx))]
     · rw [if_neg hr, list_map_eq_self_of _ l (fun x hx => if_neg (h x hx))])

theorem C10_reconcile_missing_target_noop_witness :
    reconcileNotificationData [sampleNotifA, sampleNotifB] "P999" 2 =
      [sampleNotifA, sampleNotifB] :=
  C10_reconcile_missing_target_noop.1 [sampleNotifA, sampleNotifB] "P999" 2 (by decide)

/-- C9: every item held in the local actionable collections has an approver
identifier present and positive quantity — established by the post-fetch
filters of both tables, and preserved by both reconcilers (an item whose
remaining quantity reaches 0 is removed, never kept at quantity 0). -/
theorem C9_actionable_invariant :
    (∀ (tz now : Int) (items : List ApiListItem),
      ∀ x ∈ notificationFetchSuccess tz now items,
        x.approvedBy.isSome = true ∧ 0 < x.quantity) ∧
    (∀ (tz : Int) (items : List ApiListItem),
      ∀ x ∈ listFetchSuccess tz items,
        x.approvedBy.isSome = true ∧ 0 < x.quantity) ∧
    (∀ (l : List NotificationItem) (targetId : String) (remaining : Rat),
      (∀ x ∈ l, x.approvedBy.isSome = true ∧ 0 < x.quantity) →
      ∀ x ∈ reconcileNotificationData l targetId remaining,
        x.approvedBy.isSome = true ∧ 0 < x.quantity) ∧
    (∀ (l : List ListItem) (targetId : String) (remaining : Rat),
      (∀ x ∈ l, x.approvedBy.isSome = true ∧ 0 < x.quantity) →
      ∀ x ∈ reconcileListData l targetId remaining,
        x.approvedBy.isSome = true ∧ 0 < x.quantity) := by
  refine ⟨?_, ?_, ?_, ?_⟩
  · intro tz now items x hx
    simp only [notificationFetchSuccess, List.mem_filter, Bool.and_eq_true,
      decide_eq_true_eq] at hx
    exact ⟨hx.1.2.1, hx.1.2.2⟩
  · intro tz items x hx
    simp only [listFetchSuccess, List.mem_filter, Bool.and_eq_true,
      decide_eq_true_eq] at hx
    exact ⟨hx.2.1, hx.2.2⟩
  · intro l targetId remaining h x hx
    simp only [reconcileNotificationData] at hx
    by_cases hr : remaining ≤ 0
    · rw [if_pos hr] at hx
      exact h x (List.mem_of_mem_filter hx)
    · rw [if_neg hr] at hx
      obtain ⟨a, ha, rfl⟩ := List.mem_map.mp hx
      by_cases hid : a.id = targetId
      · rw [if_pos hid]
        exact ⟨(h a ha).1, not_le.mp hr⟩
      · rw [if_neg hid]
        exact h a ha
  · intro l targetId remaining h x hx
    simp only [reconcileListData] at hx
    by_cases hr : remaining ≤ 0
    · rw [if_pos hr] at hx
      exact h x (List.mem_of_mem_filter hx)
    · rw [if_neg hr] at hx
      obtain ⟨a, ha, rfl⟩ := List.mem_map.mp hx
      by_cases hid : a.id = targetId
      · rw [if_pos hid]
        exact ⟨(h a ha).1, not_le.mp hr⟩
      · rw [if_neg hid]
        exact h a ha

theorem C9_actionable_invariant_witness :
    sampleNotifB.approvedBy.isSome = true ∧ 0 < sampleNotifB.quantity :=
  C9_actionable_invariant.2.2.1 [sampleNotifA, sampleNotifB] "P1" 2
    (by decide) sampleNotifB (by decide)

/-- C3: whenever an issue-out or damage attempt sees a failed remote call
(transport/parse failure, non-OK HTTP status, or a body whose `status` is not
`"success"`), the handler leaves the local collection exactly as it was
before the attempt, stores a user-visible error message, and rejects so the
modal can also surface it — for both components. -/
theorem C3_failed_remote_leaves_collection :
    (∀ (st : NotificationState) (outcome : FetchOutcome) (actionDesc : String)
        (quantityChanged : Rat) (item : NotificationItem),
      st.actionItem = some item → remoteCallFailed outcome →
      (handlePostEventApiAction st outcome actionDesc quantityChanged).1.allNotificationData =
        st.allNotificationData ∧
      (handlePostEventApiAction st outcome actionDesc quantityChanged).1.error.isSome = true ∧
      ∃ msg, (handlePostEventApiAction st outcome actionDesc quantityChanged).2 =
        .rejected msg) ∧
    (∀ (st : ListState) (outcome : FetchOutcome) (actionDesc : String)
        (quantityChanged : Rat) (item : ListItem),
      st.actionItem = some item → remoteCallFailed outcome →
      (handlePostApiAction st outcome actionDesc quantityChanged).1.allData = st.allData ∧
      (handlePostApiAction st outcome actionDesc quantityChanged).1.error.isSome = true ∧
      ∃ msg, (handlePostApiAction st outcome actionDesc quantityChanged).2 = .rejected msg) := by
  constructor <;>
    (intro st outcome actionDesc quantityChanged item hsel hfail
     cases outcome with
     | fail msg =>
       simp [handlePostEventApiAction, handlePostApiAction, hsel]
     | got result =>
       have hcond : result.ok = false ∨ result.status ≠ "success" := hfail
       simp only [handlePostEventApiAction, handlePostApiAction, hsel]
       rw [if_pos hcond]
       exact ⟨rfl, rfl, _, rfl⟩)

theorem C3_failed_remote_leaves_collection_witness :
    (handlePostEventApiAction sampleNotifState
        (.got ⟨true, 200, "error", some "boom"⟩) "issue out item" 2).1.allNotificationData =
      sampleNotifState.allNotificationData ∧
    (handlePostEventApiAction sampleNotifState
        (.got ⟨true, 200, "error", some "boom"⟩) "issue out item" 2).1.error.isSome = true ∧
    ∃ msg, (handlePostEventApiAction sampleNotifState
        (.got ⟨true, 200, "error", some "boom"⟩) "issue out item" 2).2 = .rejected msg :=
  C3_failed_remote_leaves_collection.1 sampleNotifState
    (.got ⟨true, 200, "error", some "boom"⟩) "issue out item" 2 sampleNotifA rfl
    (Or.inr (by decide))

/-- C4: an issue-out or damage submission whose input is invalid — quantity
non-positive, non-integer, or above the available stock, or (for damage) a
blank remark — is stopped on the client: either the browser's constraint
validation blocks the submit event or `handleSubmit` sets a validation error
and returns; in both cases no `onSubmit`/network call is reached. -/
theorem C4_validation_blocks_network :
    (∀ (itemData : ModalItemData) (quantity remarks : String) (v : Rat),
      jsStringToNumber quantity = some v →
      (v ≤ 0 ∨ v.den ≠ 1 ∨ itemData.quantity < v) →
      (∃ m, issueOutFormSubmit itemData quantity remarks = .blocked m) ∨
      (∃ m, issueOutFormSubmit itemData quantity remarks = .validationError m)) ∧
    (∀ (itemData : ModalItemData) (quantity remarks : String) (v : Rat),
      jsStringToNumber quantity = some v →
      (v ≤ 0 ∨ v.den ≠ 1 ∨ itemData.quantity < v) →
      (∃ m, damageFormSubmit itemData quantity remarks = .blocked m) ∨
      (∃ m, damageFormSubmit itemData quantity remarks = .validationError m)) ∧
    (∀ (itemData : ModalItemData) (quantity remarks : String),
      jsTrim remarks = "" →
      (∃ m, damageFormSubmit itemData quantity remarks = .blocked m) ∨
      (∃ m, damageFormSubmit itemData quantity remarks = .validationError m)) := by
  have gate : ∀ (q : String) (v : Rat), jsStringToNumber q = some v →
      quantityInputAllowsSubmit q = true → 1 ≤ v ∧ v.den = 1 := by
    intro q v hv hgate
    unfold quantityInputAllowsSubmit at hgate
    by_cases hq0 : q = ""
    · rw [if_pos hq0] at hgate
      exact absurd hgate (by simp)
    · rw [if_neg hq0, hv] at hgate
      simpa [Bool.and_eq_true, decide_eq_true_eq] using hgate
  refine ⟨?_, ?_, ?_⟩
  · intro itemData q r v hv hbad
    unfold issueOutFormSubmit
    by_cases hgate : quantityInputAllowsSubmit q = true
    · right
      obtain ⟨hge, hden⟩ := gate q v hv hgate
      rw [if_pos hgate]
      simp only [issueOutHandleSubmit, hv]
      rcases hbad with hb | hb | hb
      · exact absurd hb (by intro hc; linarith)
      · exact absurd hb (by simp [hden])
      · rw [if_neg (by intro hc; linarith), if_pos hb]
        exact ⟨_, rfl⟩
    · left
      exact ⟨_, by rw [if_neg hgate]⟩
  · intro itemData q r v hv hbad
    unfold damageFormSubmit
    by_cases hgate : quantityInputAllowsSubmit q = true
    · right
      obtain ⟨hge, hden⟩ := gate q v hv hgate
      rw [if_pos hgate]
      simp only [damageHandleSubmit, hv]
      rcases hbad with hb | hb | hb
      · exact absurd hb (by intro hc; linarith)
      · exact absurd hb (by simp [hden])
      · rw [if_neg (by intro hc; linarith), if_pos hb]
        exact ⟨_, rfl⟩
    · left
      exact ⟨_, by rw [if_neg hgate]⟩
  · intro itemData q r hr
    unfold damageFormSubmit
    by_cases hgate : quantityInputAllowsSubmit q = true
    · right
      rw [if_pos hgate]
      cases hv : jsStringToNumber q with
      | none =>
        simp only [damageHandleSubmit, hv]
        exact ⟨_, rfl⟩
      | some v =>
        simp only [damageHandleSubmit, hv]
        by_cases h0 : v ≤ 0
        · rw [if_pos h0]
          exact ⟨_, rfl⟩
        · rw [if_neg h0]
          by_cases hq : v > itemData.quantity
          · rw [if_pos hq]
            exact ⟨_, rfl⟩
          · rw [if_neg hq, if_pos hr]
            exact ⟨_, rfl⟩
    · left
      exact ⟨_, by rw [if_neg hgate]⟩

theorem C4_validation_blocks_network_witness :
    (∃ m, issueOutFormSubmit sampleModalItem "2.5" "" = .blocked m) ∨
    (∃ m, issueOutFormSubmit sampleModalItem "2.5" "" = .validationError m) :=
  C4_validation_blocks_network.1 sampleModalItem "2.5" "" (Rat.divInt 5 2) (by decide)
    (Or.inr (Or.inl (by decide)))
